import Mathlib

/-!
# SmartEye-Backend incident intake service: a shallow embedding

This file embeds the request-handling path of `app.py` (the single-file
FastAPI service) in Lean and proves properties of it:

* the JSON values produced by `json.loads` (`Json`),
* the base64 data-URI encoding of the uploaded image
  (`b64EncodeGroups`, `format_image_base64`),
* the `POST /report_incident/` handler (`report_incident`), including the
  `try`/`except` control flow that turns every `HTTPException` raised inside
  the `try` block into a 500 response,
* the startup loading of the persistence file (`load`) and the persistence
  behaviour of the handler.

Machine-level side effects (printing) are dropped; everything else is
state-passing: the handler maps (store, file, request) to
(response, store, file).
-/

namespace SmartEye

/-- JSON values, as returned by Python's `json.loads`.  Numbers are modelled
as integers (the records the service builds only ever hold integers). -/
inductive Json where
  | jnull : Json
  | jbool : Bool → Json
  | jnum : Int → Json
  | jstr : String → Json
  | jarr : List Json → Json
  | jobj : List (String × Json) → Json

/-- The persistence file `incident_data.json`, as seen by `json.load`:
absent, present but not valid JSON, or present with a parsed value. -/
inductive FileState where
  | absent : FileState
  | unparseable : FileState
  | parsed : Json → FileState

/-- The `image` part of the multipart request: raw bytes (each < 256) and the
declared content type (`UploadFile.content_type`, which may be `None`). -/
structure Upload where
  bytes : List Nat
  content_type : Option String
deriving Repr, DecidableEq

/-- The record built by `report_incident` (`response_data` in the source). -/
structure Record where
  id : Nat
  timestamp : String
  type : List String
  location : String
  image : String
  message : String
deriving Repr, DecidableEq

/-- The HTTP response of the handler: either the 200 `JSONResponse` carrying
`status`/`message` fields, or an `HTTPException` with a status and detail. -/
inductive Resp where
  | json : Nat → String → String → Resp
  | httpError : Nat → String → Resp
deriving Repr, DecidableEq

/-! ## Base64 (Python `base64.b64encode` / `b64decode` on this alphabet) -/

/-- The standard base64 alphabet used by `base64.b64encode`. -/
def b64Alphabet : List Char :=
  "ABCDEFGHIJKLMNOPQRSTUVWXYZabcdefghijklmnopqrstuvwxyz0123456789+/".data

/-- Character for a 6-bit group. -/
def sextToChar (n : Nat) : Char := b64Alphabet.getD n 'A'

/-- Position of a character in a character list. -/
def findIdx (c : Char) : List Char → Option Nat
  | [] => none
  | d :: rest => if d = c then some 0 else (findIdx c rest).map Nat.succ

/-- The 6-bit group for a character of the alphabet. -/
def charToSext (c : Char) : Option Nat := findIdx c b64Alphabet

/-- Python `base64.b64encode` on a byte string, producing the character list of the
encoded text: bytes are consumed in groups of three, a final group of one or
two bytes is padded with `=`. -/
def b64EncodeGroups : List Nat → List Char
  | [] => []
  | [a] => [sextToChar (a / 4), sextToChar (a % 4 * 16), '=', '=']
  | [a, b] => [sextToChar (a / 4), sextToChar (a % 4 * 16 + b / 16),
               sextToChar (b % 16 * 4), '=']
  | a :: b :: c :: rest =>
      sextToChar (a / 4) :: sextToChar (a % 4 * 16 + b / 16) ::
      sextToChar (b % 16 * 4 + c / 64) :: sextToChar (c % 64) ::
      b64EncodeGroups rest

/-- Python `base64.b64encode(x).decode("utf-8")`: the encoded text as a string. -/
def b64encode (bs : List Nat) : String := String.mk (b64EncodeGroups bs)

/-- Python `base64.b64decode` on a well-formed encoding: consume four characters at a
time, honouring `=` padding in the final group. -/
def b64DecodeGroups : List Char → Option (List Nat)
  | [] => some []
  | w :: x :: y :: z :: rest =>
    match charToSext w, charToSext x with
    | some sw, some sx =>
      if y = '=' then
        if z = '=' ∧ rest = [] then some [sw * 4 + sx / 16] else none
      else
        match charToSext y with
        | some sy =>
          if z = '=' then
            if rest = [] then some [sw * 4 + sx / 16, sx % 16 * 16 + sy / 4]
            else none
          else
            match charToSext z with
            | some sz =>
              match b64DecodeGroups rest with
              | some bs =>
                  some ((sw * 4 + sx / 16) :: (sx % 16 * 16 + sy / 4) ::
                        (sy % 4 * 64 + sz) :: bs)
              | none => none
            | none => none
        | none => none
    | _, _ => none
  | _ => none

theorem charToSext_sextToChar : ∀ n < 64, charToSext (sextToChar n) = some n := by
  decide

theorem sextToChar_ne_eq : ∀ n < 64, sextToChar n ≠ '=' := by
  decide

/-- Round-trip: decoding the encoding of any byte string recovers it. -/
theorem b64DecodeGroups_b64EncodeGroups (bs : List Nat)
    (h : ∀ b ∈ bs, b < 256) : b64DecodeGroups (b64EncodeGroups bs) = some bs := by
  induction bs using b64EncodeGroups.induct with
  | case1 => rfl
  | case2 a =>
    have ha : a < 256 := h a (by simp)
    have h1 := charToSext_sextToChar (a / 4) (by omega)
    have h2 := charToSext_sextToChar (a % 4 * 16) (by omega)
    have hval : a / 4 * 4 + a % 4 * 16 / 16 = a := by omega
    simp [b64EncodeGroups, b64DecodeGroups, h1, h2, hval]
    omega
  | case3 a b =>
    have ha : a < 256 := h a (by simp)
    have hb : b < 256 := h b (by simp)
    have h1 := charToSext_sextToChar (a / 4) (by omega)
    have h2 := charToSext_sextToChar (a % 4 * 16 + b / 16) (by omega)
    have h3 := charToSext_sextToChar (b % 16 * 4) (by omega)
    have hy := sextToChar_ne_eq (b % 16 * 4) (by omega)
    have hva : a / 4 * 4 + (a % 4 * 16 + b / 16) / 16 = a := by omega
    have hvb : (a % 4 * 16 + b / 16) % 16 * 16 + b % 16 * 4 / 4 = b := by omega
    simp [b64EncodeGroups, b64DecodeGroups, h1, h2, h3, hy, hva, hvb]
    omega
  | case4 a b c rest ih =>
    have ha : a < 256 := h a (by simp)
    have hb : b < 256 := h b (by simp)
    have hc : c < 256 := h c (by simp)
    have hrest : ∀ x ∈ rest, x < 256 := by
      intro x hx; exact h x (by simp [hx])
    have h1 := charToSext_sextToChar (a / 4) (by omega)
    have h2 := charToSext_sextToChar (a % 4 * 16 + b / 16) (by omega)
    have h3 := charToSext_sextToChar (b % 16 * 4 + c / 64) (by omega)
    have h4 := charToSext_sextToChar (c % 64) (by omega)
    have hy := sextToChar_ne_eq (b % 16 * 4 + c / 64) (by omega)
    have hz := sextToChar_ne_eq (c % 64) (by omega)
    have hva : a / 4 * 4 + (a % 4 * 16 + b / 16) / 16 = a := by omega
    have hvb : (a % 4 * 16 + b / 16) % 16 * 16 + (b % 16 * 4 + c / 64) / 4 = b := by
      omega
    have hvc : (b % 16 * 4 + c / 64) % 4 * 64 + c % 64 = c := by omega
    simp [b64EncodeGroups, b64DecodeGroups, h1, h2, h3, h4, hy, hz, hva, hvb, hvc,
          ih hrest]

/-! ## The handler's strings -/

/-- Detail of the key-set / non-dict rejection (line 81). -/
def msgKeys : String :=
  "Le JSON doit contenir exactement \x27accident\x27, \x27incendie\x27, \x27violence\x27, \x27commentaire\x27"

/-- Detail of the flag-type rejection (line 84). -/
def msgBools : String :=
  "Les champs \x27accident\x27, \x27incendie\x27, \x27violence\x27 doivent être des booléens"

/-- Detail of the comment-type rejection (line 86). -/
def msgComment : String := "Le champ \x27commentaire\x27 doit être une chaîne"

/-- Detail of the all-flags-false rejection (line 98). -/
def msgNoType : String :=
  "Aucun type d\x27incident détecté (au moins un booléen doit être true)"

/-- Detail of the empty-image rejection (line 103). -/
def msgEmptyImage : String := "L\x27image est vide"

/-- Detail of the JSON-decode rejection (line 135). -/
def msgJsonInvalid : String := "Le JSON envoyé n\x27est pas valide"

/-- The success message of the 200 response (line 131). -/
def msgSuccess : String := "Incident signalé avec succès"

/-- The text `str(e)` for a starlette `HTTPException`: its `__str__` prints
`"<status_code>: <detail>"`.  This is the text the catch-all
`except Exception` handler (line 137) embeds in the 500 response. -/
def httpExcStr (status : Nat) (detail : String) : String :=
  toString status ++ ": " ++ detail

/-! ## Helpers of the handler -/

/-- Dictionary access `data[key]` (keys are unique in a dict produced by
`json.loads`; after the key-set check the lookup cannot miss). -/
def jget (kvs : List (String × Json)) (k : String) : Json :=
  (List.lookup k kvs).getD Json.jnull

/-- Python `isinstance(v, bool)`. -/
def isBool : Json → Bool
  | Json.jbool _ => true
  | _ => false

/-- Python `isinstance(v, str)`. -/
def isStr : Json → Bool
  | Json.jstr _ => true
  | _ => false

/-- The boolean carried by a JSON value known to be a boolean. -/
def asBool : Json → Bool
  | Json.jbool b => b
  | _ => false

/-- The string carried by a JSON value known to be a string. -/
def asStr : Json → String
  | Json.jstr s => s
  | _ => ""

/-- The expected key set of the request JSON (line 79). -/
def expected_keys : List String := ["accident", "incendie", "violence", "commentaire"]

/-- Equality of key sets: `set(data.keys()) == expected_keys` (order and
multiplicity do not matter). -/
def keySetEq (ks es : List String) : Bool :=
  ks.all (fun k => es.contains k) && es.all (fun e => ks.contains e)

/-- Lines 89–95: the `type` list, built by testing the flags in the fixed
order accident, incendie, violence. -/
def incidentTypes (fa fi fv : Bool) : List String :=
  (if fa then ["accident"] else []) ++
  (if fi then ["incendie"] else []) ++
  (if fv then ["violence"] else [])

/-- Line 105: keep a declared `image/jpeg` or `image/png` content type,
substitute `image/jpeg` for anything else — including a missing (`None`)
content type, since `None in [...]` is false. -/
def mimeOf : Option String → String
  | some ct => if ct = "image/jpeg" ∨ ct = "image/png" then ct else "image/jpeg"
  | none => "image/jpeg"

/-- Function `format_image_base64` (lines 63–68): base64-encode the bytes and wrap
them in a data URI.  The Python `try`/`except` around the encode cannot fire
for a bytes buffer (encoding a bytes value never raises), so the
`EncodingFailure` branch is dead code and the function is total. -/
def format_image_base64 (image_data : List Nat) (mime_type : String) : String :=
  "data:" ++ mime_type ++ ";base64," ++ b64encode image_data

/-! ## The POST /report_incident/ handler -/

/-- An exception escaping the `try` block of `report_incident`. -/
inductive PyExc where
  | jsonDecodeError : PyExc
  | httpExc : Nat → String → PyExc

/-- The body of the `try` block (lines 77–132): validate, build the record,
append.  A raised `HTTPException(400, ...)` is returned as an exception —
whether it reaches the client as a 400 is decided by the `except` clauses,
modelled in `report_incident`.  The form field `response` arrives already
parsed: `Except.error ()` stands for a `json.loads` failure
(`json.JSONDecodeError`), `Except.ok v` for a successful parse to `v`. -/
def report_incident_try (store : List Record) (parsed : Except Unit Json)
    (image : Upload) (now : String) : Except PyExc (List Record) :=
  match parsed with
  | Except.error _ => Except.error PyExc.jsonDecodeError
  | Except.ok data =>
    match data with
    | Json.jobj kvs =>
      if keySetEq (kvs.map Prod.fst) expected_keys then
        if ["accident", "incendie", "violence"].all (fun k => isBool (jget kvs k)) then
          if isStr (jget kvs "commentaire") then
            let incident_types := incidentTypes (asBool (jget kvs "accident"))
              (asBool (jget kvs "incendie")) (asBool (jget kvs "violence"))
            if incident_types.isEmpty then
              Except.error (PyExc.httpExc 400 msgNoType)
            else if image.bytes.isEmpty then
              Except.error (PyExc.httpExc 400 msgEmptyImage)
            else
              let mime_type := mimeOf image.content_type
              let formatted := format_image_base64 image.bytes mime_type
              let response_data : Record :=
                ⟨store.length + 1, now, incident_types,
                 "Cotonou - Carrefour SIKA", formatted, asStr (jget kvs "commentaire")⟩
              Except.ok (store ++ [response_data])
          else Except.error (PyExc.httpExc 400 msgComment)
        else Except.error (PyExc.httpExc 400 msgBools)
      else Except.error (PyExc.httpExc 400 msgKeys)
    | _ => Except.error (PyExc.httpExc 400 msgKeys)

/-- The whole handler (lines 71–137), mapping the pre-state and the request
to the response, the new store and the new file state.

Two behaviours of the source are worth spelling out:

* Persistence: line 126 calls the `async` function `save_incident_to_file()`
  WITHOUT `await`.  In Python this builds a coroutine object and discards it;
  it is never scheduled, so the file is never written.  The file state is
  therefore unchanged on every path.
* Exception routing: `fastapi.HTTPException` is a subclass of `Exception`,
  and the clause `except json.JSONDecodeError` only matches parse failures.
  So every `HTTPException(400, ...)` raised inside the `try` block is caught
  by the catch-all `except Exception as e` (line 136) and re-raised as
  `HTTPException(500, str(e))` — the client sees a 500 whose detail embeds
  the original message.  Only the `json.JSONDecodeError` path (line 135)
  reaches the client as a 400, because that `raise` happens inside an
  `except` clause, outside the `try` block. -/
def report_incident (store : List Record) (file : FileState)
    (parsed : Except Unit Json) (image : Upload) (now : String) :
    Resp × List Record × FileState :=
  match report_incident_try store parsed image now with
  | Except.ok store2 => (Resp.json 200 "success" msgSuccess, store2, file)
  | Except.error PyExc.jsonDecodeError =>
      (Resp.httpError 400 msgJsonInvalid, store, file)
  | Except.error (PyExc.httpExc s d) =>
      (Resp.httpError 500 (httpExcStr s d), store, file)

/-- Endpoint `GET /incidents` (lines 140–142): return the store. -/
def get_incidents (store : List Record) : List Record := store

/-- One submission to `POST /report_incident/`. -/
structure Request where
  parsed : Except Unit Json
  image : Upload
  now : String

/-- A sequence of submissions processed one after the other. -/
def runRequests : List Record → FileState → List Request → List Record × FileState
  | store, file, [] => (store, file)
  | store, file, q :: qs =>
      runRequests (report_incident store file q.parsed q.image q.now).2.1
        (report_incident store file q.parsed q.image q.now).2.2 qs

/-! ## Startup loading of the persistence file (lines 35–41) -/

/-- Python `incident_storage.extend(v)` for a parsed JSON value `v`: Python extends
from any iterable — the elements of a list, the keys of a dict, the
characters (as one-character strings) of a string — and raises `TypeError`
on anything else (`None`, a boolean, a number). -/
def pyExtend : Json → Option (List Json)
  | Json.jarr xs => some xs
  | Json.jobj kvs => some (kvs.map (fun kv => Json.jstr kv.1))
  | Json.jstr s => some (s.data.map (fun c => Json.jstr (String.singleton c)))
  | _ => none

/-- Result of the startup load: the initial store and whether the `except`
branch printed an error. -/
structure LoadOutcome where
  store : List Json
  logged : Bool

/-- Lines 35–41: if the file exists, `json.load` it and `extend` the (empty)
store with the result; any exception — a parse failure or a `TypeError` from
`extend` — is caught and printed, leaving the store as it was (empty). -/
def load : FileState → LoadOutcome
  | FileState.absent => ⟨[], false⟩
  | FileState.unparseable => ⟨[], true⟩
  | FileState.parsed v =>
    match pyExtend v with
    | some elems => ⟨elems, false⟩
    | none => ⟨[], true⟩

/-- Python `isinstance(v, dict)`. -/
def isObjJson : Json → Bool
  | Json.jobj _ => true
  | _ => false

/-! ## Sample inputs used by witnesses and counterexamples -/

/-- A valid request body: accident flagged, with comment `"test"`. -/
def sampleKvs : List (String × Json) :=
  [("accident", Json.jbool true), ("incendie", Json.jbool false),
   ("violence", Json.jbool false), ("commentaire", Json.jstr "test")]

/-- A request body with all three flags false. -/
def allFalseKvs : List (String × Json) :=
  [("accident", Json.jbool false), ("incendie", Json.jbool false),
   ("violence", Json.jbool false), ("commentaire", Json.jstr "")]

/-- A request body with an extra fifth key. -/
def extraKeyKvs : List (String × Json) :=
  sampleKvs ++ [("extra", Json.jnull)]

/-- A request body missing the `commentaire` key. -/
def missingKeyKvs : List (String × Json) :=
  [("accident", Json.jbool true), ("incendie", Json.jbool false),
   ("violence", Json.jbool false)]

/-- A request body whose `accident` field is a number, not a boolean. -/
def badTypeKvs : List (String × Json) :=
  [("accident", Json.jnum 1), ("incendie", Json.jbool false),
   ("violence", Json.jbool false), ("commentaire", Json.jstr "")]

/-- A three-byte JPEG-labeled upload (the JPEG magic bytes). -/
def sampleUpload : Upload := ⟨[255, 216, 255], some "image/jpeg"⟩

/-- A zero-byte upload. -/
def emptyUpload : Upload := ⟨[], some "image/jpeg"⟩

/-- A valid submission, as an element of a request sequence. -/
def sampleRequest : Request :=
  ⟨Except.ok (Json.jobj sampleKvs), sampleUpload, "t"⟩

/-! ## Helper lemmas about the handler -/

theorem incidentTypes_isEmpty_false (fa fi fv : Bool) (h : fa || fi || fv = true) :
    (incidentTypes fa fi fv).isEmpty = false := by
  cases fa <;> cases fi <;> cases fv <;> simp_all [incidentTypes]

/-- Reduction of the handler on a valid submission. -/
theorem report_incident_success_eq
    (store : List Record) (file : FileState) (kvs : List (String × Json))
    (image : Upload) (now : String) (fa fi fv : Bool) (comment : String)
    (hk : keySetEq (kvs.map Prod.fst) expected_keys = true)
    (ha : jget kvs "accident" = Json.jbool fa)
    (hi : jget kvs "incendie" = Json.jbool fi)
    (hv : jget kvs "violence" = Json.jbool fv)
    (hcm : jget kvs "commentaire" = Json.jstr comment)
    (hflag : fa || fi || fv = true)
    (himg : image.bytes ≠ []) :
    report_incident store file (Except.ok (Json.jobj kvs)) image now =
      (Resp.json 200 "success" msgSuccess,
       store ++ [⟨store.length + 1, now, incidentTypes fa fi fv,
                 "Cotonou - Carrefour SIKA",
                 format_image_base64 image.bytes (mimeOf image.content_type),
                 comment⟩],
       file) := by
  have hne := incidentTypes_isEmpty_false fa fi fv hflag
  have hbe : image.bytes.isEmpty = false := by
    cases hb : image.bytes with
    | nil => exact absurd hb himg
    | cons x xs => rfl
  simp [report_incident, report_incident_try, hk, ha, hi, hv, hcm, hne, hbe,
        isBool, isStr, asBool, asStr]

/-- The handler never touches the file state: the persisting coroutine is
never awaited. -/
theorem report_incident_file_unchanged (store : List Record) (file : FileState)
    (parsed : Except Unit Json) (image : Upload) (now : String) :
    (report_incident store file parsed image now).2.2 = file := by
  unfold report_incident
  cases report_incident_try store parsed image now with
  | ok s2 => rfl
  | error e => cases e <;> rfl

/-- When the `try` block succeeds, it appended exactly one record, whose id
is the previous store length plus one. -/
theorem report_incident_try_ok (store : List Record) (parsed : Except Unit Json)
    (image : Upload) (now : String) (s2 : List Record)
    (h : report_incident_try store parsed image now = Except.ok s2) :
    ∃ r : Record, s2 = store ++ [r] ∧ r.id = store.length + 1 := by
  cases parsed with
  | error e => simp [report_incident_try] at h
  | ok data =>
    cases data with
    | jobj kvs =>
      simp only [report_incident_try] at h
      split at h
      · split at h
        · split at h
          · split at h
            · exact absurd h (by simp)
            · split at h
              · exact absurd h (by simp)
              · injection h with h2
                exact ⟨_, h2.symm, rfl⟩
          · exact absurd h (by simp)
        · exact absurd h (by simp)
      · exact absurd h (by simp)
    | jnull => simp [report_incident_try] at h
    | jbool b => simp [report_incident_try] at h
    | jnum n => simp [report_incident_try] at h
    | jstr s => simp [report_incident_try] at h
    | jarr xs => simp [report_incident_try] at h

/-- Each request leaves the store as it was or appends a single record whose
id is the previous length plus one. -/
theorem report_incident_store_shape (store : List Record) (file : FileState)
    (parsed : Except Unit Json) (image : Upload) (now : String) :
    (report_incident store file parsed image now).2.1 = store ∨
    ∃ r : Record, (report_incident store file parsed image now).2.1 = store ++ [r] ∧
      r.id = store.length + 1 := by
  unfold report_incident
  cases hshape : report_incident_try store parsed image now with
  | ok s2 =>
    right
    obtain ⟨r, hr, hid⟩ := report_incident_try_ok store parsed image now s2 hshape
    exact ⟨r, by simp [hr], hid⟩
  | error e => cases e <;> simp

/-- Processing requests never shrinks the store. -/
theorem runRequests_length_mono (reqs : List Request) :
    ∀ (store : List Record) (file : FileState),
      store.length ≤ ((runRequests store file reqs).1).length := by
  induction reqs with
  | nil => intro store file; exact Nat.le_refl _
  | cons q qs ih =>
    intro store file
    rw [runRequests]
    rcases report_incident_store_shape store file q.parsed q.image q.now with
      hs | ⟨r, hs, _⟩
    · rw [hs]; exact ih _ _
    · rw [hs]
      calc store.length ≤ (store ++ [r]).length := by simp
        _ ≤ _ := ih _ _

/-- Records present before a request sequence are still at their indices
afterwards: the store is only ever appended to. -/
theorem runRequests_getElem_stable (reqs : List Request) :
    ∀ (store : List Record) (file : FileState) (k : Nat), k < store.length →
      ((runRequests store file reqs).1)[k]? = store[k]? := by
  induction reqs with
  | nil => intro store file k _; rfl
  | cons q qs ih =>
    intro store file k hk
    rw [runRequests]
    rcases report_incident_store_shape store file q.parsed q.image q.now with
      hs | ⟨r, hs, _⟩
    · rw [hs]; exact ih _ _ _ hk
    · rw [hs]
      rw [ih (store ++ [r]) _ k (by simp; omega)]
      simp [List.getElem?_append, hk]

/-- A record sitting at an index the store had not yet reached before the
request sequence was processed carries the id `index + 1`. -/
theorem runRequests_new_id (reqs : List Request) :
    ∀ (store : List Record) (file : FileState) (k : Nat) (r : Record),
      store.length ≤ k → ((runRequests store file reqs).1)[k]? = some r →
      r.id = k + 1 := by
  induction reqs with
  | nil =>
    intro store file k r hk hr
    rw [runRequests] at hr
    rw [List.getElem?_eq_none hk] at hr
    exact Option.noConfusion hr
  | cons q qs ih =>
    intro store file k r hk hr
    rw [runRequests] at hr
    rcases report_incident_store_shape store file q.parsed q.image q.now with
      hs | ⟨r0, hs, hid⟩
    · rw [hs] at hr; exact ih _ _ _ _ hk hr
    · rw [hs] at hr
      by_cases hkeq : k = store.length
      · subst hkeq
        rw [runRequests_getElem_stable qs (store ++ [r0]) _ store.length
          (by simp)] at hr
        simp [List.getElem?_append] at hr
        rw [← hr]
        exact hid
      · exact ih _ _ _ _ (by simp; omega) hr

/-- A GIF-labeled upload. -/
def gifUpload : Upload := ⟨[255, 216, 255], some "image/gif"⟩

/-- An upload with no declared content type. -/
def noneUpload : Upload := ⟨[255, 216, 255], none⟩

/-! ## The claims -/

/-- C1: the claim says every successful submission rewrites the store to the
persistence file before the handler finishes, so that reloading yields the
same records.  The code never does: line 126 calls the async
`save_incident_to_file()` without `await`, so the coroutine is discarded and
the file is untouched on every path — after a successful submission from an
empty store, the in-memory store holds one record while reloading the
(absent) file yields zero. -/
theorem c1_store_is_never_persisted :
    (∀ (store : List Record) (file : FileState) (parsed : Except Unit Json)
       (image : Upload) (now : String),
       (report_incident store file parsed image now).2.2 = file) ∧
    (report_incident [] FileState.absent (Except.ok (Json.jobj sampleKvs))
        sampleUpload "t").1 = Resp.json 200 "success" msgSuccess ∧
    ((report_incident [] FileState.absent (Except.ok (Json.jobj sampleKvs))
        sampleUpload "t").2.1).length = 1 ∧
    (load (report_incident [] FileState.absent (Except.ok (Json.jobj sampleKvs))
        sampleUpload "t").2.2).store.length = 0 :=
  ⟨report_incident_file_unchanged, rfl, rfl, rfl⟩

/-- C2: the claim says client-input rejections (wrong key set, wrong value
types, all flags false, empty image) return HTTP 400.  They do not: the
`HTTPException(400, ...)` raised inside the `try` block is caught by the
catch-all `except Exception` and re-raised as a 500 whose detail embeds the
original message.  The store (and file) are indeed unchanged. -/
theorem c2_client_rejections_surface_as_500 :
    report_incident [] FileState.absent (Except.ok (Json.jobj allFalseKvs))
        sampleUpload "t" =
      (Resp.httpError 500 (httpExcStr 400 msgNoType), [], FileState.absent) ∧
    report_incident [] FileState.absent (Except.ok (Json.jobj extraKeyKvs))
        sampleUpload "t" =
      (Resp.httpError 500 (httpExcStr 400 msgKeys), [], FileState.absent) ∧
    report_incident [] FileState.absent (Except.ok (Json.jobj missingKeyKvs))
        sampleUpload "t" =
      (Resp.httpError 500 (httpExcStr 400 msgKeys), [], FileState.absent) ∧
    report_incident [] FileState.absent (Except.ok (Json.jobj badTypeKvs))
        sampleUpload "t" =
      (Resp.httpError 500 (httpExcStr 400 msgBools), [], FileState.absent) ∧
    report_incident [] FileState.absent (Except.ok (Json.jobj sampleKvs))
        emptyUpload "t" =
      (Resp.httpError 500 (httpExcStr 400 msgEmptyImage), [], FileState.absent) :=
  ⟨rfl, rfl, rfl, rfl, rfl⟩

/-- C3: a submission whose JSON body has exactly the expected keys, boolean
flags and a string comment, with at least one flag true and a non-empty
image, gets the 200 success response and grows the store by exactly one. -/
theorem c3_valid_submission_succeeds
    (store : List Record) (file : FileState) (kvs : List (String × Json))
    (image : Upload) (now : String) (fa fi fv : Bool) (comment : String)
    (hk : keySetEq (kvs.map Prod.fst) expected_keys = true)
    (ha : jget kvs "accident" = Json.jbool fa)
    (hi : jget kvs "incendie" = Json.jbool fi)
    (hv : jget kvs "violence" = Json.jbool fv)
    (hcm : jget kvs "commentaire" = Json.jstr comment)
    (hflag : fa || fi || fv = true)
    (himg : image.bytes ≠ []) :
    (report_incident store file (Except.ok (Json.jobj kvs)) image now).1 =
      Resp.json 200 "success" msgSuccess ∧
    ((report_incident store file (Except.ok (Json.jobj kvs)) image now).2.1).length =
      store.length + 1 := by
  rw [report_incident_success_eq store file kvs image now fa fi fv comment
    hk ha hi hv hcm hflag himg]
  exact ⟨rfl, by simp⟩

theorem c3_witness :
    (report_incident [] FileState.absent (Except.ok (Json.jobj sampleKvs))
        sampleUpload "t").1 = Resp.json 200 "success" msgSuccess ∧
    ((report_incident [] FileState.absent (Except.ok (Json.jobj sampleKvs))
        sampleUpload "t").2.1).length = ([] : List Record).length + 1 :=
  c3_valid_submission_succeeds [] FileState.absent sampleKvs sampleUpload "t"
    true false false "test" rfl rfl rfl rfl rfl rfl (by decide)

/-- C4 counterexample: the claim says a persistence file that is present but
does not parse as a list leaves the store empty with the error logged.  A
file holding the JSON string `"ab"` parses (to a non-list); `extend` then
iterates the string, so the store starts with the two one-character strings
and nothing is logged. -/
theorem c4_counterexample :
    (load (FileState.parsed (Json.jstr "ab"))).store.length = 2 ∧
    (load (FileState.parsed (Json.jstr "ab"))).logged = false ∧
    ¬ ((load (FileState.parsed (Json.jstr "ab"))).store = [] ∧
       (load (FileState.parsed (Json.jstr "ab"))).logged = true) := by
  refine ⟨rfl, rfl, ?_⟩
  intro h
  exact absurd h.2 (by simp [load, pyExtend])

/-- C4 (amended): at process start, an absent file leaves the store empty;
a file that fails to parse as JSON, or parses to a non-iterable value
(null, a boolean, a number), is logged and leaves the store empty, without
crashing; but a value that Python can iterate — a list, and also a dict or a
string — is extended into the store element by element, with no error. -/
theorem c4_load_amended :
    load FileState.absent = ⟨[], false⟩ ∧
    load FileState.unparseable = ⟨[], true⟩ ∧
    (∀ v, pyExtend v = none → load (FileState.parsed v) = ⟨[], true⟩) ∧
    (∀ v es, pyExtend v = some es → load (FileState.parsed v) = ⟨es, false⟩) := by
  refine ⟨rfl, rfl, ?_, ?_⟩
  · intro v h; simp [load, h]
  · intro v es h; simp [load, h]

theorem c4_witness :
    load (FileState.parsed (Json.jnum 0)) = ⟨[], true⟩ ∧
    load (FileState.parsed (Json.jarr [])) = ⟨[], false⟩ :=
  ⟨c4_load_amended.2.2.1 (Json.jnum 0) rfl,
   c4_load_amended.2.2.2 (Json.jarr []) [] rfl⟩

/-- C5: a `response` form field that is not valid JSON raises
`json.JSONDecodeError`, which the dedicated `except` clause turns into an
HTTP 400 with its detail message; the store and file are unchanged.  (This
is the one rejection that really reaches the client as a 400: its `raise`
sits inside the `except` clause, outside the `try` block.) -/
theorem c5_malformed_json_is_400 (store : List Record) (file : FileState)
    (image : Upload) (now : String) :
    report_incident store file (Except.error ()) image now =
      (Resp.httpError 400 msgJsonInvalid, store, file) := rfl

/-- C6: on a successful submission the appended record — the last element
returned by `GET /incidents` — has a `type` equal to the fixed sequence
accident, incendie, violence filtered to the true flags, and an `image`
field whose base64 payload decodes back to the uploaded bytes. -/
theorem c6_type_order_and_image_roundtrip
    (store : List Record) (file : FileState) (kvs : List (String × Json))
    (image : Upload) (now : String) (fa fi fv : Bool) (comment : String)
    (hk : keySetEq (kvs.map Prod.fst) expected_keys = true)
    (ha : jget kvs "accident" = Json.jbool fa)
    (hi : jget kvs "incendie" = Json.jbool fi)
    (hv : jget kvs "violence" = Json.jbool fv)
    (hcm : jget kvs "commentaire" = Json.jstr comment)
    (hflag : fa || fi || fv = true)
    (himg : image.bytes ≠ [])
    (h256 : ∀ b ∈ image.bytes, b < 256) :
    ∃ (r : Record) (payload : List Char),
      get_incidents (report_incident store file (Except.ok (Json.jobj kvs))
          image now).2.1 = get_incidents store ++ [r] ∧
      r.type = ["accident", "incendie", "violence"].filter
          (fun t => if t = "accident" then fa else if t = "incendie" then fi else fv) ∧
      r.image = "data:" ++ mimeOf image.content_type ++ ";base64," ++
        String.mk payload ∧
      b64DecodeGroups payload = some image.bytes := by
  rw [report_incident_success_eq store file kvs image now fa fi fv comment
    hk ha hi hv hcm hflag himg]
  refine ⟨⟨store.length + 1, now, incidentTypes fa fi fv,
          "Cotonou - Carrefour SIKA",
          format_image_base64 image.bytes (mimeOf image.content_type), comment⟩,
        b64EncodeGroups image.bytes, rfl, ?_,
        rfl, b64DecodeGroups_b64EncodeGroups image.bytes h256⟩
  show incidentTypes fa fi fv = _
  cases fa <;> cases fi <;> cases fv <;> rfl

theorem c6_witness :
    ∃ (r : Record) (payload : List Char),
      get_incidents (report_incident [] FileState.absent
          (Except.ok (Json.jobj sampleKvs)) sampleUpload "t").2.1 =
        get_incidents [] ++ [r] ∧
      r.type = ["accident", "incendie", "violence"].filter
          (fun t => if t = "accident" then true
                    else if t = "incendie" then false else false) ∧
      r.image = "data:" ++ mimeOf sampleUpload.content_type ++ ";base64," ++
        String.mk payload ∧
      b64DecodeGroups payload = some sampleUpload.bytes :=
  c6_type_order_and_image_roundtrip [] FileState.absent sampleKvs sampleUpload
    "t" true false false "test" rfl rfl rfl rfl rfl rfl (by decide) (by decide)

/-- C7: on a successful submission, a declared content type of exactly
`image/jpeg` or `image/png` is kept in the stored data URI; any other
declared content type is silently replaced by `image/jpeg`, the encoded
content itself being the same either way. -/
theorem c7_mime_normalization
    (store : List Record) (file : FileState) (kvs : List (String × Json))
    (image : Upload) (now : String) (fa fi fv : Bool) (comment : String)
    (hk : keySetEq (kvs.map Prod.fst) expected_keys = true)
    (ha : jget kvs "accident" = Json.jbool fa)
    (hi : jget kvs "incendie" = Json.jbool fi)
    (hv : jget kvs "violence" = Json.jbool fv)
    (hcm : jget kvs "commentaire" = Json.jstr comment)
    (hflag : fa || fi || fv = true)
    (himg : image.bytes ≠ []) :
    ∃ r : Record,
      (report_incident store file (Except.ok (Json.jobj kvs)) image now).2.1 =
        store ++ [r] ∧
      (∀ ct, image.content_type = some ct → (ct = "image/jpeg" ∨ ct = "image/png") →
        r.image = "data:" ++ ct ++ ";base64," ++ b64encode image.bytes) ∧
      (∀ ct, image.content_type = some ct → ¬(ct = "image/jpeg" ∨ ct = "image/png") →
        r.image = "data:image/jpeg;base64," ++ b64encode image.bytes) := by
  rw [report_incident_success_eq store file kvs image now fa fi fv comment
    hk ha hi hv hcm hflag himg]
  refine ⟨⟨store.length + 1, now, incidentTypes fa fi fv,
          "Cotonou - Carrefour SIKA",
          format_image_base64 image.bytes (mimeOf image.content_type), comment⟩,
        rfl, ?_, ?_⟩
  · intro ct hct hor
    show format_image_base64 image.bytes (mimeOf image.content_type) = _
    rw [hct]
    show "data:" ++ (if ct = "image/jpeg" ∨ ct = "image/png" then ct
                     else "image/jpeg") ++ ";base64," ++ b64encode image.bytes = _
    rw [if_pos hor]
  · intro ct hct hor
    show format_image_base64 image.bytes (mimeOf image.content_type) = _
    rw [hct]
    show "data:" ++ (if ct = "image/jpeg" ∨ ct = "image/png" then ct
                     else "image/jpeg") ++ ";base64," ++ b64encode image.bytes = _
    rw [if_neg hor]
    rfl

theorem c7_witness :
    ∃ r : Record,
      (report_incident [] FileState.absent (Except.ok (Json.jobj sampleKvs))
          gifUpload "t").2.1 = [] ++ [r] ∧
      r.image = "data:image/jpeg;base64," ++ b64encode gifUpload.bytes := by
  obtain ⟨r, hr, _, hsub⟩ := c7_mime_normalization [] FileState.absent sampleKvs
    gifUpload "t" true false false "test" rfl rfl rfl rfl rfl rfl (by decide)
  exact ⟨r, hr, hsub "image/gif" rfl (by decide)⟩

/-- C8: the id of an appended record is the previous store length plus one,
and since requests only ever append, records created later in a process
lifetime sit at larger indices and carry strictly larger ids. -/
theorem c8_ids_monotone :
    (∀ (store : List Record) (file : FileState) (parsed : Except Unit Json)
       (image : Upload) (now : String) (r : Record),
       (report_incident store file parsed image now).2.1 = store ++ [r] →
       r.id = store.length + 1) ∧
    (∀ (store : List Record) (file : FileState) (reqs : List Request)
       (i j : Nat) (ri rj : Record), store.length ≤ i → i < j →
       ((runRequests store file reqs).1)[i]? = some ri →
       ((runRequests store file reqs).1)[j]? = some rj →
       ri.id < rj.id) := by
  constructor
  · intro store file parsed image now r h
    rcases report_incident_store_shape store file parsed image now with
      hs | ⟨r0, hs, hid⟩
    · rw [h] at hs
      have hlen := congrArg List.length hs
      simp at hlen
    · rw [h] at hs
      have h2 : r = r0 := by simpa using hs
      rw [h2]; exact hid
  · intro store file reqs i j ri rj hi hij hri hrj
    have h1 := runRequests_new_id reqs store file i ri hi hri
    have h2 := runRequests_new_id reqs store file j rj (by omega) hrj
    omega

theorem c8_witness :
    (⟨1, "t", ["accident"], "Cotonou - Carrefour SIKA",
      "data:image/jpeg;base64,/9j/", "test"⟩ : Record).id =
      ([] : List Record).length + 1 ∧
    (⟨1, "t", ["accident"], "Cotonou - Carrefour SIKA",
      "data:image/jpeg;base64,/9j/", "test"⟩ : Record).id <
    (⟨2, "t", ["accident"], "Cotonou - Carrefour SIKA",
      "data:image/jpeg;base64,/9j/", "test"⟩ : Record).id := by
  constructor
  · exact c8_ids_monotone.1 [] FileState.absent
      (Except.ok (Json.jobj sampleKvs)) sampleUpload "t" _ rfl
  · exact c8_ids_monotone.2 [] FileState.absent [sampleRequest, sampleRequest]
      0 1 _ _ (by decide) (by decide) rfl rfl

/-- C9: a `response` field that parses to a JSON value that is not an object
takes the same `raise` (line 81) as a wrong key set — the handler's result,
including the detail text, is identical to that of a wrong-key-set
submission — and the store is unchanged. -/
theorem c9_non_object_same_as_wrong_keys (store : List Record)
    (file : FileState) (image : Upload) (now : String) (v : Json)
    (hv : isObjJson v = false) :
    report_incident store file (Except.ok v) image now =
      (Resp.httpError 500 (httpExcStr 400 msgKeys), store, file) ∧
    report_incident store file (Except.ok v) image now =
      report_incident store file (Except.ok (Json.jobj [("foo", Json.jnull)]))
        image now := by
  cases v with
  | jobj kvs => exact absurd hv (by simp [isObjJson])
  | jnull => exact ⟨rfl, rfl⟩
  | jbool b => exact ⟨rfl, rfl⟩
  | jnum n => exact ⟨rfl, rfl⟩
  | jstr s => exact ⟨rfl, rfl⟩
  | jarr xs => exact ⟨rfl, rfl⟩

theorem c9_witness :
    report_incident [] FileState.absent (Except.ok (Json.jarr [])) sampleUpload
        "t" = (Resp.httpError 500 (httpExcStr 400 msgKeys), [], FileState.absent) ∧
    report_incident [] FileState.absent (Except.ok (Json.jarr [])) sampleUpload
        "t" = report_incident [] FileState.absent
        (Except.ok (Json.jobj [("foo", Json.jnull)])) sampleUpload "t" :=
  c9_non_object_same_as_wrong_keys [] FileState.absent sampleUpload "t"
    (Json.jarr []) rfl

/-- C10: a successful submission whose upload declares no content type at
all is stored with the default `image/jpeg` label, because `None` is not in
the accepted list. -/
theorem c10_no_content_type_defaults_jpeg
    (store : List Record) (file : FileState) (kvs : List (String × Json))
    (image : Upload) (now : String) (fa fi fv : Bool) (comment : String)
    (hk : keySetEq (kvs.map Prod.fst) expected_keys = true)
    (ha : jget kvs "accident" = Json.jbool fa)
    (hi : jget kvs "incendie" = Json.jbool fi)
    (hv : jget kvs "violence" = Json.jbool fv)
    (hcm : jget kvs "commentaire" = Json.jstr comment)
    (hflag : fa || fi || fv = true)
    (himg : image.bytes ≠ [])
    (hct : image.content_type = none) :
    ∃ r : Record,
      (report_incident store file (Except.ok (Json.jobj kvs)) image now).2.1 =
        store ++ [r] ∧
      r.image = "data:image/jpeg;base64," ++ b64encode image.bytes := by
  rw [report_incident_success_eq store file kvs image now fa fi fv comment
    hk ha hi hv hcm hflag himg]
  refine ⟨⟨store.length + 1, now, incidentTypes fa fi fv,
          "Cotonou - Carrefour SIKA",
          format_image_base64 image.bytes (mimeOf image.content_type), comment⟩,
        rfl, ?_⟩
  show format_image_base64 image.bytes (mimeOf image.content_type) = _
  rw [hct]
  rfl

theorem c10_witness :
    ∃ r : Record,
      (report_incident [] FileState.absent (Except.ok (Json.jobj sampleKvs))
          noneUpload "t").2.1 = [] ++ [r] ∧
      r.image = "data:image/jpeg;base64," ++ b64encode noneUpload.bytes :=
  c10_no_content_type_defaults_jpeg [] FileState.absent sampleKvs noneUpload
    "t" true false false "test" rfl rfl rfl rfl rfl rfl (by decide) rfl

end SmartEye
